import Mathlib

/-!
Shallow embedding of the cache-and-driver core of gosh-optim
(src/src/potential.rs, src/src/opt.rs, src/src/vars.rs), with theorems
checking the natural-language specification against it.

Modelling conventions:
* `f64` is modelled by `F`: either a rational value or NaN. Infinities and
  the sign of zero are not needed by any claim and are not modelled.
  IEEE comparisons with NaN are false; arithmetic propagates NaN.
* The Euclidean norm `‖d‖` is compared against `epsilon` through squares:
  for non-NaN inputs and non-negative `epsilon`, `‖d‖ > epsilon` iff
  `‖d‖² > epsilon²`, and `‖d‖` is NaN iff `‖d‖²` is, so the squared
  comparison is an exact model of the source's comparison on the reachable
  states (constructed `epsilon` is `1e-8`; `set_epsilon` rejects negatives).
* A Rust `panic!`/failed `assert!` is modelled by `Option`: `none` is the
  panic, `some s` the surviving state.
* The evaluator (`EvaluatePotential::evaluate`, an `FnMut` receiving the
  position and the in-out `PotentialOutput` buffer) is modelled as a pure
  function from the position and the current buffer contents to
  `Except E (PotentialOutput × U)`: the updated buffer plus the extra
  payload. The ghost field `ninvoke` counts evaluator invocations
  (including failed ones), so "does not invoke the evaluator" is statable;
  `neval` is the source's `neval` counter (incremented only on success).
-/

/-- Model of `f64`: a rational number or NaN. -/
inductive F where
  | nan : F
  | val : ℚ → F
deriving DecidableEq

/-- IEEE addition on the model: NaN propagates. -/
def F.add : F → F → F
  | .nan, _ => .nan
  | _, .nan => .nan
  | .val a, .val b => .val (a + b)

/-- IEEE subtraction on the model: NaN propagates. -/
def F.sub : F → F → F
  | .nan, _ => .nan
  | _, .nan => .nan
  | .val a, .val b => .val (a - b)

/-- IEEE multiplication on the model: NaN propagates. -/
def F.mul : F → F → F
  | .nan, _ => .nan
  | _, .nan => .nan
  | .val a, .val b => .val (a * b)

/-- IEEE `<`: any comparison involving NaN is false. -/
def F.ltF : F → F → Bool
  | .nan, _ => false
  | _, .nan => false
  | .val a, .val b => decide (a < b)

/-- IEEE `>`, via `b < a`. -/
def F.gtF (a b : F) : Bool := F.ltF b a

/-- `f64::is_nan`. -/
def F.isNan : F → Bool
  | .nan => true
  | .val _ => false

/-- `f64::is_sign_positive`: true when the sign bit is clear. `+0.0` and the
default (positive-sign) NaN both report true, as in Rust. `ℚ` has a single
zero, which models Rust's literal `0.0` (i.e. `+0.0`). -/
def F.is_sign_positive : F → Bool
  | .nan => true
  | .val q => decide (0 ≤ q)

/-- Strict positivity of a float value (the spec's `epsilon > 0`);
false on NaN. -/
def F.isPos : F → Bool
  | .nan => false
  | .val q => decide (0 < q)

/-- Squared Euclidean norm of a vector, NaN-propagating. Stands in for the
source's `.norm()` under the squared comparison explained above. -/
def normSq (xs : List F) : F :=
  (xs.map fun x => F.mul x x).foldl F.add (F.val 0)

/-- Componentwise `x += d` (`vecfx`'s `vecadd(displacement, 1.0)`). -/
def vecadd (x d : List F) : List F := List.zipWith F.add x d

/-- Componentwise difference (`vecfx`'s slice subtraction). -/
def vecsub (x y : List F) : List F := List.zipWith F.sub x y

/-- `PotentialOutput` from src/src/potential.rs: evaluated energy and force. -/
structure PotentialOutput where
  energy : F
  force : List F
deriving DecidableEq

/-- `State` from src/src/potential.rs: current position plus the optional
cached evaluation. -/
structure State where
  position : List F
  evaluated : Option PotentialOutput
deriving DecidableEq

/-- `State::new`. -/
def State.new (x : List F) : State :=
  { position := x, evaluated := none }

/-- `Dynamics` from src/src/potential.rs. `ninvoke` is a ghost counter of
evaluator invocations (the source has no such field); all other fields are
the source's. -/
structure Dyn (E U : Type) where
  f : List F → PotentialOutput → Except E (PotentialOutput × U)
  state : State
  epsilon : F
  neval : Nat
  user_data : Option U
  ninvoke : Nat

/-- `Dynamics::new`: epsilon `1e-8`, zero evaluations, no cached output. -/
def Dyn.new (x : List F) (f : List F → PotentialOutput → Except E (PotentialOutput × U)) : Dyn E U :=
  { f := f
    state := State.new x
    epsilon := F.val (1 / 100000000)
    neval := 0
    user_data := none
    ninvoke := 0 }

/-- `Dynamics::eval`: `get_or_insert` a placeholder output (energy NaN,
zero force) into the cache slot, invoke the evaluator on it, and only on
success store the result, the extra payload, and bump `neval`. The state
is returned on both paths because the Rust `?` leaves the already-inserted
placeholder (and the invocation) behind on failure. -/
def Dyn.eval (s : Dyn E U) : Except E (PotentialOutput × U) × Dyn E U :=
  let n := s.state.position.length
  let buffer := s.state.evaluated.getD { energy := F.nan, force := List.replicate n (F.val 0) }
  let s1 : Dyn E U :=
    { s with state := { s.state with evaluated := some buffer }, ninvoke := s.ninvoke + 1 }
  match s.f s.state.position buffer with
  | .error e => (.error e, s1)
  | .ok (out, u) =>
      (.ok (out, u),
        { s1 with
            state := { s1.state with evaluated := some out }
            user_data := some u
            neval := s1.neval + 1 })

/-- `Dynamics::get_energy`: cached energy if present, else evaluate. -/
def Dyn.get_energy (s : Dyn E U) : Except E F × Dyn E U :=
  match s.state.evaluated with
  | some v => (.ok v.energy, s)
  | none =>
      match s.eval with
      | (.ok (out, _), s1) => (.ok out.energy, s1)
      | (.error e, s1) => (.error e, s1)

/-- `Dynamics::get_force`: cached force if present, else evaluate. -/
def Dyn.get_force (s : Dyn E U) : Except E (List F) × Dyn E U :=
  match s.state.evaluated with
  | some v => (.ok v.force, s)
  | none =>
      match s.eval with
      | (.ok (out, _), s1) => (.ok out.force, s1)
      | (.error e, s1) => (.error e, s1)

/-- `Dynamics::get_extra`: cached extra payload if present, else evaluate
(after a successful `eval` the payload is exactly the one `eval` returned,
which the source reads back with `unwrap`). -/
def Dyn.get_extra (s : Dyn E U) : Except E U × Dyn E U :=
  match s.user_data with
  | some v => (.ok v, s)
  | none =>
      match s.eval with
      | (.ok (_, u), s1) => (.ok u, s1)
      | (.error e, s1) => (.error e, s1)

/-- `Dynamics::ncalls`. -/
def Dyn.ncalls (s : Dyn E U) : Nat := s.neval

/-- `Dynamics::recount`. -/
def Dyn.recount (s : Dyn E U) : Dyn E U := { s with neval := 0 }

/-- `Dynamics::set_epsilon`: `assert!(eps.is_sign_positive())` then store.
`none` models the assertion panic. -/
def Dyn.set_epsilon (s : Dyn E U) (eps : F) : Option (Dyn E U) :=
  if eps.is_sign_positive then some { s with epsilon := eps } else none

/-- `Dynamics::step_toward`, exactly as written in the source: it computes
the step size, then `assert!(step_size.is_nan(), "found invalid float
numbers")` — the condition as written, so the assertion FAILS (panic,
`none`) whenever the displacement holds only valid floats, and passes only
when the step size is NaN, in which case `NaN > epsilon` is false and the
call is a no-op. The `step_size > epsilon` branch is kept to mirror the
source even though it is unreachable after the assertion. -/
def Dyn.step_toward (s : Dyn E U) (d : List F) : Option (Dyn E U) :=
  let step_size_sq := normSq d
  if step_size_sq.isNan = false then none
  else if F.gtF step_size_sq (F.mul s.epsilon s.epsilon) then
    some { s with state := { position := vecadd s.state.position d, evaluated := none } }
  else
    some s

/-- `Dynamics::step_toward` with the assertion condition as its own panic
message ("found invalid float numbers: ...") and the sibling helper
`fmax_` in src/src/lib.rs (`assert!(!fmax.is_nan(), ...)`) dictate:
panic only when the step size IS NaN. Used to evidence what the
epsilon-guarded branch does once it is reachable. -/
def Dyn.step_toward_intended (s : Dyn E U) (d : List F) : Option (Dyn E U) :=
  let step_size_sq := normSq d
  if step_size_sq.isNan then none
  else if F.gtF step_size_sq (F.mul s.epsilon s.epsilon) then
    some { s with state := { position := vecadd s.state.position d, evaluated := none } }
  else
    some s

/-- `Dynamics::set_position`, exactly as written: `assert_eq!` on lengths
(panic on mismatch), then the same inverted NaN assertion as
`step_toward`, then the epsilon guard on the norm of the difference. -/
def Dyn.set_position (s : Dyn E U) (p : List F) : Option (Dyn E U) :=
  if p.length ≠ s.state.position.length then none
  else
    let step_size_sq := normSq (vecsub p s.state.position)
    if step_size_sq.isNan = false then none
    else if F.gtF step_size_sq (F.mul s.epsilon s.epsilon) then
      some { s with state := { position := p, evaluated := none } }
    else
      some s

/-- Modelled from the spec: the "last"-snapshot variant of the cache.
`revert()` and the previous-State snapshot are absent from
src/src/potential.rs (the `Dynamics` there has no such field); only
src/tests/test_potential.rs exercises them (`revert`, `get_last_energy`,
`get_last_forces`). Fields follow §3/§4.1 of the spec: current State, one
optional previous-State snapshot "last", the epsilon threshold, and the
evaluation counter. The evaluator is irrelevant to the snapshot claims and
is omitted. -/
structure DynS where
  state : State
  last : Option State
  epsilon : F
  neval : Nat
deriving DecidableEq

/-- Modelled from the spec: `step_toward(displacement)` — "if
`‖displacement‖ > epsilon`, snapshot current State as "last", add
displacement to position, invalidate cached energy/force. Otherwise
no-op." Norm comparison by squares as elsewhere. -/
def DynS.step_toward (s : DynS) (d : List F) : DynS :=
  if F.gtF (normSq d) (F.mul s.epsilon s.epsilon) then
    { s with
        last := some s.state
        state := { position := vecadd s.state.position d, evaluated := none } }
  else
    s

/-- Modelled from the spec: `revert()` — "restore State from "last" if
present; no-op otherwise. Exactly one level of undo." The snapshot itself
is kept, as src/tests/test_potential.rs expects (`get_last_energy` still
answers after `revert`). -/
def DynS.revert (s : DynS) : DynS :=
  match s.last with
  | some st => { s with state := st }
  | none => s

/-- `Vars` from src/src/vars.rs: the recognized configuration options. -/
structure Vars where
  max_step_size : F
  max_linesearch : Nat
  initial_step_size : F
  max_evaluations : Nat
  algorithm : String
deriving DecidableEq

/-- `impl Default for Vars`. -/
def Vars.defaults : Vars :=
  { max_step_size := F.val (1 / 10)
    max_linesearch := 1
    initial_step_size := F.val (1 / 75)
    max_evaluations := 0
    algorithm := "LBFGS" }

/-- `Vars::from_env`: the `envy` environment parse (an external crate) is
modelled as its result, an `Except` input; on success the parsed value is
returned, on any error the defaults are (the source also logs a warning,
a side effect outside the model). Total by type: never fails. -/
def Vars.from_env (parsed : Except String Vars) : Vars :=
  match parsed with
  | .ok vars => vars
  | .error _ => Vars.defaults

/-- `OptimizedIter` from src/src/opt.rs: one progress record per pulled
driver step. -/
structure OptRecord (U : Type) where
  ncalls : Nat
  fmax : F
  energy : F
  extra : U
deriving DecidableEq

/-- The mutable loop variables of `Optimizer::optimize_geometry`
(`niter`, `fmax`, `computed`), plus a ghost count `pulled` of how many
records were pulled from the lazy step iterator. -/
structure LoopState (U : Type) where
  niter : Nat
  fmax : F
  computed : Option U
  pulled : Nat
deriving DecidableEq

/-- The `for (progress, i) in steps.take(nmax).zip(1..)` loop body of
`Optimizer::optimize_geometry` (src/src/opt.rs): per record set
`niter := i`, `fmax := progress.fmax`, `computed := progress.extra`, then
`break` when `fmax < threshold` (IEEE `<`: NaN never satisfies it).
The lazy iterator is modelled as the list of records it would yield;
`pulled` counts how many were consumed. Checkpoint commits and progress
printing are I/O side effects outside the model. -/
def optLoopGo (thresh : F) : List (OptRecord U) → Nat → Nat → LoopState U → LoopState U
  | [], _, _, acc => acc
  | _ :: _, 0, _, acc => acc
  | r :: rest, k + 1, i, acc =>
      let acc1 : LoopState U :=
        { niter := i, fmax := r.fmax, computed := some r.extra, pulled := acc.pulled + 1 }
      if F.ltF r.fmax thresh then acc1
      else optLoopGo thresh rest k (i + 1) acc1

/-- `Optimizer::optimize_geometry` after the checkpoint restore: run the
loop from `niter = 0`, `fmax = NaN`, `computed = None`, then
`computed.ok_or("model was not computed")` and assemble `Optimized`. -/
def optimize_geometry (thresh : F) (nmax : Nat) (steps : List (OptRecord U)) :
    Except String (Nat × F × U) :=
  let fin := optLoopGo thresh steps nmax 1 { niter := 0, fmax := F.nan, computed := none, pulled := 0 }
  match fin.computed with
  | none => .error "model was not computed"
  | some u => .ok (fin.niter, fin.fmax, u)

/-- Derived specification helper (not source code): how many records the
`optimize_geometry` loop consumes from a given record list with a given
`nmax` budget — it stops after the first record whose `fmax` beats the
threshold, or at exhaustion. -/
def consumedCount (thresh : F) : List (OptRecord U) → Nat → Nat
  | [], _ => 0
  | _ :: _, 0 => 0
  | r :: rest, k + 1 =>
      if F.ltF r.fmax thresh then 1 else 1 + consumedCount thresh rest k

/-! Small rewriting lemmas for the float model. -/

@[simp]
theorem F.add_val (a b : ℚ) : F.add (F.val a) (F.val b) = F.val (a + b) := rfl

@[simp]
theorem F.mul_val (a b : ℚ) : F.mul (F.val a) (F.val b) = F.val (a * b) := rfl

@[simp]
theorem F.sub_val (a b : ℚ) : F.sub (F.val a) (F.val b) = F.val (a - b) := rfl

@[simp]
theorem F.isNan_val (a : ℚ) : F.isNan (F.val a) = false := rfl

@[simp]
theorem F.ltF_val (a b : ℚ) : F.ltF (F.val a) (F.val b) = decide (a < b) := rfl

@[simp]
theorem F.ltF_nan_left (b : F) : F.ltF F.nan b = false := by cases b <;> rfl

@[simp]
theorem F.ltF_nan_right (a : F) : F.ltF a F.nan = false := by cases a <;> rfl

/-! Concrete fixtures used by counterexamples and witnesses. A constant
evaluator keeps the cache behaviour fully observable. -/

/-- A successful evaluator with constant output: energy 5, force [3, 4]. -/
def fConst : List F → PotentialOutput → Except String (PotentialOutput × Unit) :=
  fun _ _ => .ok ({ energy := F.val 5, force := [F.val 3, F.val 4] }, ())

/-- A fresh cache at position [0, 0] over `fConst`. -/
def dynEx : Dyn String Unit := Dyn.new [F.val 0, F.val 0] fConst

/-- `dynEx` after one successful `get_energy`: both energy and force
cached, extra payload stored, one evaluation. -/
def dynExEvaluated : Dyn String Unit := (dynEx.get_energy).2

/-- `dynExEvaluated` after the intended displacement [1, 2]: position
moved, energy/force cache cleared, everything else untouched. -/
def dynExStepped : Dyn String Unit :=
  { dynExEvaluated with state := { position := [F.val 1, F.val 2], evaluated := none } }

/-- An evaluator that always fails. -/
def fFail : List F → PotentialOutput → Except String (PotentialOutput × Unit) :=
  fun _ _ => .error "evaluator failed"

/-- A fresh cache at position [0, 0] over `fFail`. -/
def dynFail : Dyn String Unit := Dyn.new [F.val 0, F.val 0] fFail

/-- C1: evidence of the code bug. The claim says `step_toward(d)` with
`‖d‖ > epsilon` snapshots, moves and invalidates, and with `‖d‖ ≤ epsilon`
is a no-op. The source instead runs
`assert!(step_size.is_nan(), "found invalid float numbers: ...")` — the
condition inverted relative to its own message — so `step_toward` panics
(`none`) on every displacement of valid floats, large ([1, 2]) or small
([0, 0]), and is a silent no-op exactly when the displacement holds a NaN.
(The source `Dynamics` also has no "last" snapshot field at all.) -/
theorem C1_step_toward_panics_on_valid_floats :
    dynEx.step_toward [F.val 1, F.val 2] = none ∧
    dynEx.step_toward [F.val 0, F.val 0] = none ∧
    dynEx.step_toward [F.nan, F.val 1] = some dynEx :=
  ⟨rfl, rfl, rfl⟩

/-- C5: evidence of the code bug. Length mismatch indeed aborts with the
state discarded (`assert_eq!`, modelled as the panic `none`), but the
"same epsilon-guarded logic as step_toward" also inherits the same
inverted NaN assertion: `set_position` panics on every valid new position
([1, 2] from [0, 0]) and silently ignores a NaN-containing one. -/
theorem C5_set_position_panics_on_valid_floats :
    dynEx.set_position [F.val 1] = none ∧
    dynEx.set_position [F.val 1, F.val 2] = none ∧
    dynEx.set_position [F.nan, F.val 0] = some dynEx :=
  ⟨rfl, rfl, rfl⟩

/-- C10: under the source as written the scenario is unreachable —
`step_toward` on a cache whose extra payload is populated panics on any
valid displacement (third conjunct). With the assertion condition as its
own message dictates (`step_toward_intended`), the invalidation clears the
cached energy/force but leaves the extra payload in place, and `get_extra`
then answers from the cache without touching the evaluator: the state
(hence `ncalls` and the invocation count) is unchanged. -/
theorem C10_extra_payload_survives_invalidation :
    dynExEvaluated.user_data = some () ∧
    dynExEvaluated.state.evaluated = some { energy := F.val 5, force := [F.val 3, F.val 4] } ∧
    dynExEvaluated.step_toward [F.val 1, F.val 2] = none ∧
    dynExEvaluated.step_toward_intended [F.val 1, F.val 2] = some dynExStepped ∧
    dynExStepped.state.evaluated = none ∧
    dynExStepped.user_data = some () ∧
    dynExStepped.get_extra = (.ok (), dynExStepped) ∧
    dynExStepped.neval = dynExEvaluated.neval ∧
    dynExStepped.ninvoke = dynExEvaluated.ninvoke := by
  refine ⟨rfl, rfl, rfl, ?_, rfl, rfl, rfl, rfl, rfl⟩
  have hgt : F.gtF (normSq [F.val 1, F.val 2])
      (F.mul dynExEvaluated.epsilon dynExEvaluated.epsilon) = true := by
    show F.gtF (normSq [F.val 1, F.val 2])
        (F.mul (F.val (1 / 100000000)) (F.val (1 / 100000000))) = true
    simp [normSq, F.gtF]
    norm_num
  have h1 : (normSq [F.val 1, F.val 2]).isNan = false := rfl
  simp only [Dyn.step_toward_intended, h1, hgt, Bool.false_eq_true, if_false, if_true]
  simp [dynExStepped, vecadd]
  show List.zipWith F.add [F.val 0, F.val 0] [F.val 1, F.val 2] = [F.val 1, F.val 2]
  simp

/-- C3, counterexample: a failing evaluator on a fresh cache. The error is
propagated, but the cached energy/force slot — absent before the call — is
left POPULATED with the placeholder the source inserted via
`get_or_insert` before invoking the evaluator (energy NaN, zero force),
refuting "the cached-energy/force slot (still absent if it was absent)". -/
theorem C3_counterexample_cache_slot_mutated :
    dynFail.state.evaluated = none ∧
    (dynFail.get_energy).1 = .error "evaluator failed" ∧
    (dynFail.get_energy).2.state.evaluated =
      some { energy := F.nan, force := [F.val 0, F.val 0] } ∧
    (dynFail.get_energy).2.state.evaluated ≠ none :=
  ⟨rfl, rfl, rfl, by decide⟩

/-- C8, counterexample: `set_epsilon(0.0)` passes the
`is_sign_positive` assertion (the sign bit of `+0.0` is clear) and stores
`epsilon = 0`, which is not strictly positive — so `set_epsilon` does not
reject every non-positive value and `epsilon > 0` is not preserved, even
though construction does establish a strictly positive epsilon. -/
theorem C8_counterexample_zero_epsilon_accepted :
    F.isPos dynEx.epsilon = true ∧
    dynEx.set_epsilon (F.val 0) = some { dynEx with epsilon := F.val 0 } ∧
    F.isPos (F.val 0) = false := by
  refine ⟨?_, rfl, rfl⟩
  show F.isPos (F.val (1 / 100000000)) = true
  simp [F.isPos]

/-- Helper: successful evaluation from an empty cache slot populates the
slot with the evaluator's output, stores the extra payload, and bumps both
the call counter and the invocation count. -/
theorem Dyn.eval_ok (s : Dyn E U) (out : PotentialOutput) (u : U)
    (h0 : s.state.evaluated = none)
    (h1 : s.f s.state.position
        { energy := F.nan, force := List.replicate s.state.position.length (F.val 0) } =
      .ok (out, u)) :
    s.eval = (.ok (out, u),
      { s with
          state := { s.state with evaluated := some out }
          user_data := some u
          neval := s.neval + 1
          ninvoke := s.ninvoke + 1 }) := by
  unfold Dyn.eval
  rw [h0]
  simp only [Option.getD_none, h1]

/-- Helper: failed evaluation from an empty cache slot propagates the
error but leaves the placeholder inserted by `get_or_insert` behind in the
slot; counters other than the ghost invocation count are untouched. -/
theorem Dyn.eval_error (s : Dyn E U) (err : E)
    (h0 : s.state.evaluated = none)
    (h1 : s.f s.state.position
        { energy := F.nan, force := List.replicate s.state.position.length (F.val 0) } =
      .error err) :
    s.eval = (.error err,
      { s with
          state := { s.state with
            evaluated :=
              some { energy := F.nan, force := List.replicate s.state.position.length (F.val 0) } }
          ninvoke := s.ninvoke + 1 }) := by
  unfold Dyn.eval
  rw [h0]
  simp only [Option.getD_none, h1]

/-- C2: from a cache with no stored evaluation, when the evaluator
succeeds, the first `get_energy` (or equally `get_force`) invokes the
evaluator exactly once (`ninvoke + 1`), populates energy and force
together (one `PotentialOutput`), stores the extra payload, and increments
`ncalls` by one; both getters reach the same successor state `s1`, and on
`s1` every further `get_energy`/`get_force` returns the identical cached
values with the state — hence both counters — unchanged. -/
theorem C2_cache_discipline (s : Dyn E U) (out : PotentialOutput) (u : U)
    (h0 : s.state.evaluated = none)
    (h1 : s.f s.state.position
        { energy := F.nan, force := List.replicate s.state.position.length (F.val 0) } =
      .ok (out, u)) :
    ∃ s1 : Dyn E U,
      s.get_energy = (.ok out.energy, s1) ∧
      s.get_force = (.ok out.force, s1) ∧
      s1.state.position = s.state.position ∧
      s1.state.evaluated = some out ∧
      s1.user_data = some u ∧
      s1.neval = s.neval + 1 ∧
      s1.ninvoke = s.ninvoke + 1 ∧
      s1.epsilon = s.epsilon ∧
      s1.get_energy = (.ok out.energy, s1) ∧
      s1.get_force = (.ok out.force, s1) := by
  refine ⟨{ s with
      state := { s.state with evaluated := some out }
      user_data := some u
      neval := s.neval + 1
      ninvoke := s.ninvoke + 1 }, ?_, ?_, rfl, rfl, rfl, rfl, rfl, rfl, rfl, rfl⟩
  · unfold Dyn.get_energy
    rw [h0, Dyn.eval_ok s out u h0 h1]
  · unfold Dyn.get_force
    rw [h0, Dyn.eval_ok s out u h0 h1]

/-- Witness for C2: the concrete cache `dynEx` over the constant
evaluator. -/
theorem C2_cache_discipline_witness :
    ∃ s1 : Dyn String Unit,
      dynEx.get_energy = (.ok (F.val 5), s1) ∧
      dynEx.get_force = (.ok [F.val 3, F.val 4], s1) ∧
      s1.state.position = dynEx.state.position ∧
      s1.state.evaluated = some { energy := F.val 5, force := [F.val 3, F.val 4] } ∧
      s1.user_data = some () ∧
      s1.neval = dynEx.neval + 1 ∧
      s1.ninvoke = dynEx.ninvoke + 1 ∧
      s1.epsilon = dynEx.epsilon ∧
      s1.get_energy = (.ok (F.val 5), s1) ∧
      s1.get_force = (.ok [F.val 3, F.val 4], s1) :=
  C2_cache_discipline dynEx { energy := F.val 5, force := [F.val 3, F.val 4] } () rfl rfl

/-- C3 as amended: when the evaluator fails on a cache with no stored
evaluation, the error is propagated by `get_energy`, `get_force` and
(when no extra payload is cached) `get_extra`; the position, `ncalls`,
stored extra payload and epsilon are unchanged — but the cached
energy/force slot is left populated with the pre-insertion placeholder
(energy NaN, zero force) instead of staying absent. -/
theorem C3_error_propagation_amended (s : Dyn E U) (err : E)
    (h0 : s.state.evaluated = none)
    (h1 : s.f s.state.position
        { energy := F.nan, force := List.replicate s.state.position.length (F.val 0) } =
      .error err) :
    ∃ s1 : Dyn E U,
      s.get_energy = (.error err, s1) ∧
      s.get_force = (.error err, s1) ∧
      (s.user_data = none → s.get_extra = (.error err, s1)) ∧
      s1.state.position = s.state.position ∧
      s1.neval = s.neval ∧
      s1.user_data = s.user_data ∧
      s1.epsilon = s.epsilon ∧
      s1.ninvoke = s.ninvoke + 1 ∧
      s1.state.evaluated =
        some { energy := F.nan, force := List.replicate s.state.position.length (F.val 0) } := by
  refine ⟨{ s with
      state := { s.state with
        evaluated :=
          some { energy := F.nan, force := List.replicate s.state.position.length (F.val 0) } }
      ninvoke := s.ninvoke + 1 }, ?_, ?_, ?_, rfl, rfl, rfl, rfl, rfl, rfl⟩
  · unfold Dyn.get_energy
    rw [h0, Dyn.eval_error s err h0 h1]
  · unfold Dyn.get_force
    rw [h0, Dyn.eval_error s err h0 h1]
  · intro hu
    unfold Dyn.get_extra
    rw [Dyn.eval_error s err h0 h1]
    simp only [hu]

/-- Witness for C3's amended statement: the concrete cache `dynFail` over
the always-failing evaluator. -/
theorem C3_error_propagation_amended_witness :
    ∃ s1 : Dyn String Unit,
      dynFail.get_energy = (.error "evaluator failed", s1) ∧
      dynFail.get_force = (.error "evaluator failed", s1) ∧
      (dynFail.user_data = none → dynFail.get_extra = (.error "evaluator failed", s1)) ∧
      s1.state.position = dynFail.state.position ∧
      s1.neval = dynFail.neval ∧
      s1.user_data = dynFail.user_data ∧
      s1.epsilon = dynFail.epsilon ∧
      s1.ninvoke = dynFail.ninvoke + 1 ∧
      s1.state.evaluated =
        some { energy := F.nan,
               force := List.replicate dynFail.state.position.length (F.val 0) } :=
  C3_error_propagation_amended dynFail "evaluator failed" rfl rfl

/-- C8 as amended: construction establishes the strictly positive epsilon
`1e-8`, but `set_epsilon` only checks the sign bit: it panics exactly on
sign-negative values and accepts every sign-positive one — including `0`
— so the invariant preserved across `set_epsilon` is sign-positivity of
epsilon, not strict positivity. -/
theorem C8_epsilon_invariant_amended (x : List F)
    (f : List F → PotentialOutput → Except E (PotentialOutput × U))
    (s : Dyn E U) (eps : F) :
    F.isPos (Dyn.new x f).epsilon = true ∧
    (F.is_sign_positive eps = false → s.set_epsilon eps = none) ∧
    (∀ s2, s.set_epsilon eps = some s2 →
      F.is_sign_positive s2.epsilon = true ∧ s2.epsilon = eps) := by
  refine ⟨by simp [Dyn.new, F.isPos], ?_, ?_⟩
  · intro h
    simp [Dyn.set_epsilon, h]
  · intro s2 h
    unfold Dyn.set_epsilon at h
    by_cases hsign : F.is_sign_positive eps = true
    · rw [if_pos hsign] at h
      cases h
      exact ⟨hsign, rfl⟩
    · rw [if_neg hsign] at h
      exact absurd h (by simp)

/-- Witness for C8's amended statement: a fresh cache has positive
epsilon; `set_epsilon(-1)` panics; `set_epsilon(0)` succeeds and the
stored epsilon is sign-positive 0. -/
theorem C8_epsilon_invariant_amended_witness :
    F.isPos (Dyn.new [F.val 0] fConst).epsilon = true ∧
    dynEx.set_epsilon (F.val (-1)) = none ∧
    (F.is_sign_positive ({ dynEx with epsilon := F.val 0 } : Dyn String Unit).epsilon = true ∧
      ({ dynEx with epsilon := F.val 0 } : Dyn String Unit).epsilon = F.val 0) :=
  ⟨(C8_epsilon_invariant_amended [F.val 0] fConst dynEx (F.val (-1))).1,
   (C8_epsilon_invariant_amended [F.val 0] fConst dynEx (F.val (-1))).2.1
     (by norm_num [F.is_sign_positive]),
   (C8_epsilon_invariant_amended [F.val 0] fConst dynEx (F.val 0)).2.2
     { dynEx with epsilon := F.val 0 } rfl⟩

/-- A snapshot-model cache with no snapshot taken yet. -/
def dynS0 : DynS :=
  { state := State.new [F.val 0], last := none, epsilon := F.val 1, neval := 0 }

/-- A snapshot-model cache holding a "last" snapshot with a cached
evaluation. -/
def dynSsnap : DynS :=
  { state := { position := [F.val 1], evaluated := none }
    last := some { position := [F.val 0],
                   evaluated := some { energy := F.val 7, force := [F.val 2] } }
    epsilon := F.val 1
    neval := 4 }

/-- C4 (on the spec-modelled snapshot cache, since src/src/potential.rs
has no `revert`): `revert` with no snapshot is a no-op; with a snapshot it
restores the saved State — position together with the cached energy/force
— without touching `ncalls`; and immediately after one over-epsilon
`step_toward` it restores the exact pre-step State, with a second `revert`
going no further back. -/
theorem C4_revert_restores_snapshot (s : DynS) (d : List F) :
    (s.last = none → s.revert = s) ∧
    (∀ st, s.last = some st → s.revert.state = st ∧ s.revert.neval = s.neval) ∧
    (F.gtF (normSq d) (F.mul s.epsilon s.epsilon) = true →
      (s.step_toward d).revert.state = s.state ∧
      (s.step_toward d).revert.neval = s.neval ∧
      (s.step_toward d).revert.revert = (s.step_toward d).revert) := by
  refine ⟨?_, ?_, ?_⟩
  · intro h
    unfold DynS.revert
    rw [h]
  · intro st h
    unfold DynS.revert
    rw [h]
    exact ⟨rfl, rfl⟩
  · intro hgt
    unfold DynS.step_toward
    rw [if_pos hgt]
    exact ⟨rfl, rfl, rfl⟩

/-- Witness for C4 at concrete snapshot caches and displacement [2] with
epsilon 1. -/
theorem C4_revert_restores_snapshot_witness :
    (dynS0.revert = dynS0) ∧
    (dynSsnap.revert.state =
        { position := [F.val 0],
          evaluated := some { energy := F.val 7, force := [F.val 2] } } ∧
      dynSsnap.revert.neval = dynSsnap.neval) ∧
    ((dynSsnap.step_toward [F.val 2]).revert.state = dynSsnap.state ∧
      (dynSsnap.step_toward [F.val 2]).revert.neval = dynSsnap.neval ∧
      (dynSsnap.step_toward [F.val 2]).revert.revert =
        (dynSsnap.step_toward [F.val 2]).revert) :=
  ⟨(C4_revert_restores_snapshot dynS0 []).1 rfl,
   (C4_revert_restores_snapshot dynSsnap []).2.1 _ rfl,
   (C4_revert_restores_snapshot dynSsnap [F.val 2]).2.2
     (by simp [dynSsnap, normSq, F.gtF]; norm_num)⟩

/-- Helper: if no record of `pre` meets the threshold, the next record
does, and the `nmax` budget covers them, the loop stops exactly at that
record — the result does not depend on `rest`, i.e. no further record is
pulled. -/
theorem optLoopGo_break (thresh : F) (pre : List (OptRecord U)) :
    ∀ (r : OptRecord U) (rest : List (OptRecord U)) (k i : Nat) (acc : LoopState U),
      (∀ p ∈ pre, F.ltF p.fmax thresh = false) →
      F.ltF r.fmax thresh = true →
      pre.length < k →
      optLoopGo thresh (pre ++ r :: rest) k i acc =
        { niter := i + pre.length, fmax := r.fmax, computed := some r.extra,
          pulled := acc.pulled + pre.length + 1 } := by
  induction pre with
  | nil =>
      intro r rest k i acc hpre hr hk
      cases k with
      | zero => omega
      | succ m =>
          simp only [List.nil_append, optLoopGo, hr, if_true, List.length_nil]
          simp
  | cons p pre ih =>
      intro r rest k i acc hpre hr hk
      cases k with
      | zero => simp at hk
      | succ m =>
          have hp : F.ltF p.fmax thresh = false := hpre p (by simp)
          simp only [List.cons_append, optLoopGo, hp, Bool.false_eq_true, if_false,
            List.append_eq]
          rw [ih r rest m (i + 1)
            { niter := i, fmax := p.fmax, computed := some p.extra, pulled := acc.pulled + 1 }
            (fun q hq => hpre q (by simp [hq])) hr (by simpa using hk)]
          simp only [LoopState.mk.injEq, List.length_cons]
          refine ⟨by omega, trivial, trivial, by omega⟩

/-- Helper: if no record ever meets the threshold (e.g. all-NaN fmax),
the loop consumes `min nmax length` records. -/
theorem optLoopGo_pulled_nobreak (thresh : F) (steps : List (OptRecord U)) :
    ∀ (k i : Nat) (acc : LoopState U),
      (∀ p ∈ steps, F.ltF p.fmax thresh = false) →
      (optLoopGo thresh steps k i acc).pulled = acc.pulled + min k steps.length := by
  induction steps with
  | nil =>
      intro k i acc h
      simp [optLoopGo]
  | cons p rest ih =>
      intro k i acc h
      cases k with
      | zero => simp [optLoopGo]
      | succ m =>
          have hp : F.ltF p.fmax thresh = false := h p (by simp)
          simp only [optLoopGo, hp, Bool.false_eq_true, if_false]
          rw [ih m (i + 1)
            { niter := i, fmax := p.fmax, computed := some p.extra, pulled := acc.pulled + 1 }
            (fun q hq => h q (by simp [hq]))]
          simp only [List.length_cons]
          omega


/-- Helper: the loop's outcome as a function of how many records it
consumes — zero consumed leaves the accumulator, `n + 1` consumed means the
record at index `n` supplied the final `niter`, `fmax` and payload. -/
theorem optLoopGo_char (thresh : F) (steps : List (OptRecord U)) :
    ∀ (k i : Nat) (acc : LoopState U),
      (consumedCount thresh steps k = 0 → optLoopGo thresh steps k i acc = acc) ∧
      (∀ n, consumedCount thresh steps k = n + 1 →
        ∃ r, steps[n]? = some r ∧
          optLoopGo thresh steps k i acc =
            { niter := i + n, fmax := r.fmax, computed := some r.extra,
              pulled := acc.pulled + n + 1 }) := by
  induction steps with
  | nil =>
      intro k i acc
      refine ⟨fun _ => by simp [optLoopGo], fun n h => ?_⟩
      simp [consumedCount] at h
  | cons p rest ih =>
      intro k i acc
      cases k with
      | zero =>
          refine ⟨fun _ => by simp [optLoopGo], fun n h => ?_⟩
          simp [consumedCount] at h
      | succ m =>
          cases hlt : F.ltF p.fmax thresh with
          | true =>
              refine ⟨fun h0 => ?_, fun n h => ?_⟩
              · simp [consumedCount, hlt] at h0
              · have hn : n = 0 := by simp [consumedCount, hlt] at h; omega
                subst hn
                refine ⟨p, by simp, ?_⟩
                simp [optLoopGo, hlt]
          | false =>
              refine ⟨fun h0 => ?_, fun n h => ?_⟩
              · simp [consumedCount, hlt] at h0
              · have hc : consumedCount thresh rest m = n := by
                  simp [consumedCount, hlt] at h
                  omega
                cases n with
                | zero =>
                    have hgo := (ih m (i + 1)
                      { niter := i, fmax := p.fmax, computed := some p.extra,
                        pulled := acc.pulled + 1 }).1 hc
                    refine ⟨p, by simp, ?_⟩
                    simp only [optLoopGo, hlt, Bool.false_eq_true, if_false]
                    rw [hgo]
                    simp
                | succ n1 =>
                    obtain ⟨r, hr, hgo⟩ := (ih m (i + 1)
                      { niter := i, fmax := p.fmax, computed := some p.extra,
                        pulled := acc.pulled + 1 }).2 n1 hc
                    refine ⟨r, by simpa using hr, ?_⟩
                    simp only [optLoopGo, hlt, Bool.false_eq_true, if_false]
                    rw [hgo]
                    simp only [LoopState.mk.injEq]
                    refine ⟨by omega, trivial, trivial, by omega⟩


/-- Progress record with fmax 5 (above threshold 0.1). -/
def rec1 : OptRecord Unit := { ncalls := 1, fmax := F.val 5, energy := F.val 0, extra := () }
/-- Progress record with fmax 1 (above threshold 0.1). -/
def rec2 : OptRecord Unit := { ncalls := 2, fmax := F.val 1, energy := F.val 0, extra := () }
/-- Progress record with fmax 0.05 (below threshold 0.1). -/
def rec3 : OptRecord Unit := { ncalls := 3, fmax := F.val (1 / 20), energy := F.val 0, extra := () }
/-- Progress record with fmax 9; must never be pulled after rec3. -/
def rec4 : OptRecord Unit := { ncalls := 4, fmax := F.val 9, energy := F.val 0, extra := () }
/-- Progress record with NaN fmax: never satisfies convergence. -/
def recNan : OptRecord Unit := { ncalls := 1, fmax := F.nan, energy := F.val 0, extra := () }
/-- The loop's initial accumulator: niter 0, fmax NaN, nothing computed. -/
def accInit : LoopState Unit := { niter := 0, fmax := F.nan, computed := none, pulled := 0 }

/-- fmax 5 does not meet threshold 0.1. -/
theorem rec1_not_conv : F.ltF rec1.fmax (F.val (1 / 10)) = false := by
  rw [show rec1.fmax = F.val 5 from rfl, F.ltF_val, decide_eq_false_iff_not]
  norm_num

/-- fmax 1 does not meet threshold 0.1. -/
theorem rec2_not_conv : F.ltF rec2.fmax (F.val (1 / 10)) = false := by
  rw [show rec2.fmax = F.val 1 from rfl, F.ltF_val, decide_eq_false_iff_not]
  norm_num

/-- fmax 0.05 meets threshold 0.1. -/
theorem rec3_conv : F.ltF rec3.fmax (F.val (1 / 10)) = true := by
  rw [show rec3.fmax = F.val (1 / 20) from rfl, F.ltF_val, decide_eq_true_eq]
  norm_num


/-- fmax 9 does not meet threshold 0.1. -/
theorem rec4_not_conv : F.ltF rec4.fmax (F.val (1 / 10)) = false := by
  rw [show rec4.fmax = F.val 9 from rfl, F.ltF_val, decide_eq_false_iff_not]
  norm_num

/-- C6: the facade loop stops at the first record whose fmax is strictly
below the threshold and never pulls a further record (the result is
independent of the records after it), and a NaN fmax never satisfies the
strict `<`, so an all-NaN stream is consumed to the `nmax`/stream
exhaustion point. -/
theorem C6_converged_stops_loop (thresh : F) (pre : List (OptRecord U))
    (r : OptRecord U) (rest steps : List (OptRecord U)) (k i : Nat) (acc : LoopState U) :
    ((∀ p ∈ pre, F.ltF p.fmax thresh = false) → F.ltF r.fmax thresh = true →
      pre.length < k →
      optLoopGo thresh (pre ++ r :: rest) k i acc =
        { niter := i + pre.length, fmax := r.fmax, computed := some r.extra,
          pulled := acc.pulled + pre.length + 1 }) ∧
    ((∀ p ∈ steps, p.fmax = F.nan) →
      (optLoopGo thresh steps k i acc).pulled = acc.pulled + min k steps.length) :=
  ⟨fun h1 h2 h3 => optLoopGo_break thresh pre r rest k i acc h1 h2 h3,
   fun hnan => optLoopGo_pulled_nobreak thresh steps k i acc
     (fun p hp => by rw [hnan p hp]; exact F.ltF_nan_left thresh)⟩

/-- Witness for C6: threshold 0.1 and fmax values [5, 1, 0.05, 9] stop
the loop after the 3rd record with the 4th never pulled; two NaN records
are consumed to exhaustion. -/
theorem C6_converged_stops_loop_witness :
    optLoopGo (F.val (1 / 10)) ([rec1, rec2] ++ rec3 :: [rec4]) 100 1 accInit =
      { niter := 3, fmax := F.val (1 / 20), computed := some (), pulled := 3 } ∧
    (optLoopGo (F.val (1 / 10)) [recNan, recNan] 100 1 accInit).pulled = 2 := by
  constructor
  · have h := (C6_converged_stops_loop (F.val (1 / 10)) [rec1, rec2] rec3 [rec4] []
        100 1 accInit).1
      (by
        intro p hp
        simp only [List.mem_cons, List.not_mem_nil, or_false] at hp
        rcases hp with h | h <;> subst h
        · exact rec1_not_conv
        · exact rec2_not_conv)
      rec3_conv
      (by decide)
    exact h
  · have h := (C6_converged_stops_loop (F.val (1 / 10)) [] rec3 [] [recNan, recNan]
        100 1 accInit).2
      (by
        intro p hp
        simp only [List.mem_cons, List.not_mem_nil, or_false] at hp
        rcases hp with h | h <;> subst h <;> rfl)
    exact h

/-- C7: when the loop consumes zero records (in particular whenever
`nmax = 0`), `optimize_geometry` returns the "model was not computed"
error; when it consumes `n + 1` records, it returns `niter = n + 1`,
the fmax of the last consumed record, and that record's extra payload. -/
theorem C7_result_assembly (thresh : F) (nmax : Nat) (steps : List (OptRecord U)) :
    (nmax = 0 → consumedCount thresh steps nmax = 0) ∧
    (consumedCount thresh steps nmax = 0 →
      optimize_geometry thresh nmax steps = .error "model was not computed") ∧
    (∀ n, consumedCount thresh steps nmax = n + 1 →
      ∃ r, steps[n]? = some r ∧
        optimize_geometry thresh nmax steps = .ok (n + 1, r.fmax, r.extra)) := by
  refine ⟨?_, ?_, ?_⟩
  · intro h
    subst h
    cases steps <;> simp [consumedCount]
  · intro h
    unfold optimize_geometry
    rw [(optLoopGo_char thresh steps nmax 1
      { niter := 0, fmax := F.nan, computed := none, pulled := 0 }).1 h]
  · intro n h
    obtain ⟨r, hr, hgo⟩ := (optLoopGo_char thresh steps nmax 1
      { niter := 0, fmax := F.nan, computed := none, pulled := 0 }).2 n h
    refine ⟨r, hr, ?_⟩
    unfold optimize_geometry
    rw [hgo]
    simp [Nat.add_comm]

/-- Witness for C7: with `nmax = 0` the error is returned; with
`nmax = 100` and fmax values [5, 1, 0.05, 9] the result is built from the
3rd record. -/
theorem C7_result_assembly_witness :
    consumedCount (F.val (1 / 10)) [rec1, rec2, rec3, rec4] 0 = 0 ∧
    optimize_geometry (F.val (1 / 10)) 0 [rec1, rec2, rec3, rec4] =
      .error "model was not computed" ∧
    (∃ r, [rec1, rec2, rec3, rec4][2]? = some r ∧
      optimize_geometry (F.val (1 / 10)) 100 [rec1, rec2, rec3, rec4] =
        .ok (3, r.fmax, r.extra)) := by
  have hcount : consumedCount (F.val (1 / 10)) [rec1, rec2, rec3, rec4] 100 = 3 := by
    simp only [consumedCount, rec1_not_conv, rec2_not_conv, rec3_conv, Bool.false_eq_true,
      if_false, if_true]
  refine ⟨(C7_result_assembly (F.val (1 / 10)) 0 [rec1, rec2, rec3, rec4]).1 rfl,
    (C7_result_assembly (F.val (1 / 10)) 0 [rec1, rec2, rec3, rec4]).2.1
      ((C7_result_assembly (F.val (1 / 10)) 0 [rec1, rec2, rec3, rec4]).1 rfl),
    (C7_result_assembly (F.val (1 / 10)) 100 [rec1, rec2, rec3, rec4]).2.2 2 hcount⟩

/-- C9: reading the configuration is total — `Vars::from_env` always
returns a `Vars`: the successfully parsed value on success, and on any
parse failure (malformed or missing environment configuration) the
defaults `max_step_size = 0.1`, `initial_step_size = 1/75`,
`max_linesearch = 1`, `max_evaluations = 0`, `algorithm = LBFGS`.
(The accompanying warning is a log side effect outside the model.) -/
theorem C9_from_env_never_fails (v : Vars) (e : String) :
    Vars.from_env (.ok v) = v ∧
    Vars.from_env (.error e) = Vars.defaults ∧
    Vars.defaults.max_step_size = F.val (1 / 10) ∧
    Vars.defaults.initial_step_size = F.val (1 / 75) ∧
    Vars.defaults.max_linesearch = 1 ∧
    Vars.defaults.max_evaluations = 0 ∧
    Vars.defaults.algorithm = "LBFGS" :=
  ⟨rfl, rfl, rfl, rfl, rfl, rfl, rfl⟩
